import Mathlib

/-!
Verification of the transcription pipeline orchestrator (src/transcribe.py).

Python strings are modelled as lists of Unicode codepoints (`PyStr`), so
that character-level operations (lowercasing, single-character replacement,
extension splitting) are explicit arithmetic on `Nat`.  The effectful
orchestrator `main` is modelled as a pure function from the parsed
arguments and an environment oracle (describing the outcome of every
external call) to the ordered trace of external-effect events together
with the process exit code.
-/

/-- A Python string, as its list of Unicode codepoints. -/
abbrev PyStr := List Nat

/-- Codepoints of a Lean string literal. -/
def strLit (s : String) : PyStr := s.data.map Char.toNat

/-- Python truthiness of an optional string: `None` and `""` are falsy. -/
def pyTruthy : Option PyStr → Bool
  | none => false
  | some s => !s.isEmpty

/-- Codepoint lowercasing, as Python `str.lower` acts on ASCII letters. -/
def lowerCp (n : Nat) : Nat := if 65 ≤ n ∧ n ≤ 90 then n + 32 else n

/-- Whether a codepoint is an (ASCII) uppercase letter. -/
def isUpperCp (n : Nat) : Bool := decide (65 ≤ n ∧ n ≤ 90)

/-- One step of Python `str.replace` with single-character pattern. -/
def replChar (a b c : Nat) : Nat := if c = a then b else c

/-- Python `s.replace(a, b)` for single-character `a`, `b`. -/
def pyReplaceChar (s : PyStr) (a b : Nat) : PyStr := s.map (replChar a b)

/-- Python `s.lower()` (ASCII fragment). -/
def pyLower (s : PyStr) : PyStr := s.map lowerCp

/-- The `safe_project` computation of `get_staging_bucket_name` and
`get_output_bucket_name`: `project_id.replace(':', '-').replace('.', '-').lower()`. -/
def safe_project (project_id : PyStr) : PyStr :=
  pyLower (pyReplaceChar (pyReplaceChar project_id 58 45) 46 45)

/-- `get_staging_bucket_name` from src/transcribe.py (lines 41-48):
`f"gemini-transcriber-{safe_project}-{safe_location}"` with
`safe_location = location.lower()`. -/
def get_staging_bucket_name (project_id location : PyStr) : PyStr :=
  strLit "gemini-transcriber-" ++ safe_project project_id ++ [45] ++ pyLower location

/-- `get_output_bucket_name` from src/transcribe.py (lines 50-53):
`f"{safe_project}-gemini-video-transcribe"`. -/
def get_output_bucket_name (project_id : PyStr) : PyStr :=
  safe_project project_id ++ strLit "-gemini-video-transcribe"

/-- Index of the last occurrence of codepoint `c` in `s` (Python `rfind`,
with `none` for `-1`). -/
def lastIndexOf (s : PyStr) (c : Nat) : Option Nat :=
  ((List.range s.length).filter (fun i => s.get? i == some c)).getLast?

/-- `os.path.splitext` (posix generic algorithm): the extension starts at the
last dot, provided it lies after the last path separator and at least one
non-dot character stands between the separator and that dot. -/
def splitext (p : PyStr) : PyStr × PyStr :=
  match lastIndexOf p 46 with
  | none => (p, [])
  | some d =>
    let start : Nat :=
      match lastIndexOf p 47 with
      | none => 0
      | some s => s + 1
    let sepBefore : Bool :=
      match lastIndexOf p 47 with
      | none => true
      | some s => decide (s < d)
    if sepBefore then
      if (List.range d).any (fun i => decide (start ≤ i) && (p.get? i != some 46)) then
        (p.take d, p.drop d)
      else (p, [])
    else (p, [])

/-- `os.path.basename`: the suffix after the last path separator. -/
def basename (p : PyStr) : PyStr :=
  match lastIndexOf p 47 with
  | none => p
  | some i => p.drop (i + 1)

/-- The `translit(name, 'uk', reversed=True)` call of `sanitize_filename`,
abstracted as a function `tr` that may raise (`none`); on an exception the
name is kept unchanged (the `except: pass` fallback, lines 134-138). -/
def translitOr (tr : PyStr → Option PyStr) (name : PyStr) : PyStr :=
  match tr name with
  | some t => t
  | none => name

/-- `sanitize_filename` from src/transcribe.py (lines 123-146): split the
extension off, transliterate (best-effort), lowercase, replace spaces with
underscores, and append `.txt`. -/
def sanitize_filename (tr : PyStr → Option PyStr) (filename : PyStr) : PyStr :=
  let name := (splitext filename).1
  let name2 := translitOr tr name
  let name3 := pyLower name2
  let name4 := pyReplaceChar name3 32 95
  name4 ++ strLit ".txt"

/-- Variant A accumulation (src/transcribe.py lines 96-103): concatenate
every fragment's text unconditionally, in arrival order. -/
def accumulateA (frags : List PyStr) : PyStr :=
  frags.foldl (fun full c => full ++ c) []

/-- The Variant B loop body (src/transcribe.py lines 206-209): `chunk.text`
is appended only when truthy (neither `None` nor empty). -/
def variantBStep (full : PyStr) (c : Option PyStr) : PyStr :=
  match c with
  | some t => if t.isEmpty then full else full ++ t
  | none => full

/-- Variant B accumulation (src/transcribe.py lines 205-211): fold the
loop body over the chunk stream. -/
def accumulateB (chunks : List (Option PyStr)) : PyStr :=
  chunks.foldl variantBStep []

/-- The non-empty fragment texts of a Variant B stream, in arrival order. -/
def nonEmptyTexts (chunks : List (Option PyStr)) : List PyStr :=
  chunks.filterMap
    (fun c =>
      match c with
      | some t => if t.isEmpty then none else some t
      | none => none)

/-- The Variant A streaming loop with its observation trace: each fragment
is consumed (printed) and appended to the accumulator before the next one
is requested, so the first component records the fragments in the order
they were observed. -/
def streamConsume (frags : List PyStr) : List PyStr × PyStr :=
  frags.foldl (fun acc chunk => (acc.1 ++ [chunk], acc.2 ++ chunk)) ([], [])

/-- Decimal rendering of a natural number, as the codepoints Python's
`f"{int(time.time())}"` produces. -/
def natStr (n : Nat) : PyStr := (Nat.toDigits 10 n).map Char.toNat

/-- The parsed command-line arguments of `main` (src/transcribe.py lines
217-227).  Optional string flags are `Option PyStr` so Python truthiness
(absent vs empty vs non-empty) is representable. -/
structure Args where
  file_path : PyStr
  bucket : Option PyStr
  project : Option PyStr
  location : PyStr
  model : PyStr
  preview : Bool
  keep_gcs : Bool
  api_key : Option PyStr

/-- Environment oracle: the outcome of every external call `main` makes.
Fields stand for, in order: existence of the input file; the project id
returned by `google.auth.default()` (with `none` for an exception or a
`None` project); the stripped stdout of the `gcloud` project lookup
(`none` for an exception); whether the check-or-create body of
`ensure_bucket` raises for a given bucket name; whether `upload_to_gcs`
succeeds; the Variant A stream (or an exception); the Variant B stream (or
an exception), with each chunk's `.text` possibly `None`; the
transliteration backend; whether the local file write succeeds; whether
`upload_text_to_gcs` succeeds; whether `delete_blob` succeeds; and the
staging timestamp `int(time.time())`. -/
structure Env where
  fileExists : Bool
  adcProject : Option PyStr
  gcloudProject : Option PyStr
  ensureFails : PyStr → Bool
  uploadOk : Bool
  inferAResult : Except Unit (List PyStr)
  inferBResult : Except Unit (List (Option PyStr))
  tr : PyStr → Option PyStr
  localWriteOk : Bool
  uploadTextOk : Bool
  deleteOk : Bool
  timestamp : Nat

/-- One external-effect event of a pipeline run, in the order performed. -/
inductive Event where
  | ensureCheck (bucket location : PyStr)
  | warnBucket (bucket : PyStr)
  | uploadBlob (bucket blob : PyStr)
  | inferA (uri model : PyStr)
  | inferB (key uri model : PyStr)
  | writeLocal (path content : PyStr)
  | uploadText (bucket name content : PyStr)
  | warnUploadText
  | deleteBlob (bucket blob : PyStr)
  | warnCleanup
  deriving DecidableEq

/-- Project-id resolution (src/transcribe.py lines 236-255): explicit
`--project`, else ambient default credentials, else the `gcloud` config
lookup; fatal (`none`) when the result is falsy or `"(unset)"`. -/
def resolveProject (args : Args) (env : Env) : Option PyStr :=
  let p1 := if pyTruthy args.project then args.project else env.adcProject
  let p2 := if pyTruthy p1 then p1 else env.gcloudProject
  if pyTruthy p2 && !(p2 == some (strLit "(unset)")) then p2 else none

/-- `ensure_bucket` (src/transcribe.py lines 23-39): the check-or-create
body runs inside a `try`; any exception is caught and logged as a warning,
never propagated. -/
def ensure_bucket (env : Env) (bucket_name location : PyStr) : List Event :=
  if env.ensureFails bucket_name then
    [Event.ensureCheck bucket_name location, Event.warnBucket bucket_name]
  else
    [Event.ensureCheck bucket_name location]

/-- The staging bucket name used by `main` (lines 260-262): the explicit
`--bucket` value when truthy, else the derived name. -/
def stagingBucketOf (args : Args) (project_id : PyStr) : PyStr :=
  if pyTruthy args.bucket then args.bucket.getD []
  else get_staging_bucket_name project_id args.location

/-- The staged blob name (line 270):
`f"gemini-transcriber-staging/{int(time.time())}_{file_name}"`. -/
def blobNameOf (env : Env) (file_name : PyStr) : PyStr :=
  strLit "gemini-transcriber-staging/" ++ natStr env.timestamp ++ [95] ++ file_name

/-- The effective model name (line 229-230): `--preview` overrides
`--model` with the fixed preview identifier. -/
def effModel (args : Args) : PyStr :=
  if args.preview then strLit "gemini-3-pro-preview" else args.model

/-- The persistence stage (lines 300-318): write the sanitized output
locally (a failure there propagates to the fatal handler), then mirror it
to the output bucket inside an inner `try` whose failure is only a
warning. -/
def persistPhase (env : Env) (output_bucket_name file_name transcription_text : PyStr) :
    List Event × Nat :=
  let output_filename := sanitize_filename env.tr file_name
  let local_output_path := strLit "workspace/output/" ++ output_filename
  if !env.localWriteOk then ([], 1)
  else if env.uploadTextOk then
    ([Event.writeLocal local_output_path transcription_text,
      Event.uploadText output_bucket_name output_filename transcription_text], 0)
  else
    ([Event.writeLocal local_output_path transcription_text,
      Event.uploadText output_bucket_name output_filename transcription_text,
      Event.warnUploadText], 0)

/-- The transcription stage (lines 280-318): dispatch on truthiness of the
API key to Variant B (`transcribe_video_genai`) or Variant A
(`transcribe_video`), accumulate the stream, then persist; any exception
in the block reaches the fatal handler (exit 1). -/
def transcribePhase (args : Args) (env : Env)
    (output_bucket_name file_name gcs_uri : PyStr) : List Event × Nat :=
  if pyTruthy args.api_key then
    match env.inferBResult with
    | Except.error _ => ([Event.inferB (args.api_key.getD []) gcs_uri (effModel args)], 1)
    | Except.ok chunks =>
      let r := persistPhase env output_bucket_name file_name (accumulateB chunks)
      (Event.inferB (args.api_key.getD []) gcs_uri (effModel args) :: r.1, r.2)
  else
    match env.inferAResult with
    | Except.error _ => ([Event.inferA gcs_uri (effModel args)], 1)
    | Except.ok frags =>
      let r := persistPhase env output_bucket_name file_name (accumulateA frags)
      (Event.inferA gcs_uri (effModel args) :: r.1, r.2)

/-- The `finally` cleanup (lines 325-330): unless `--keep-gcs`, attempt
`delete_blob` on the staged blob; a failure there is only a warning. -/
def cleanupPhase (args : Args) (env : Env) (staging_bucket_name blob_name : PyStr) :
    List Event :=
  if args.keep_gcs then []
  else if env.deleteOk then [Event.deleteBlob staging_bucket_name blob_name]
  else [Event.deleteBlob staging_bucket_name blob_name, Event.warnCleanup]

namespace Pipeline

/-- `main` (src/transcribe.py lines 213-330), from argument parsing to
exit: returns the trace of external-effect events and the exit code. -/
def main (args : Args) (env : Env) : List Event × Nat :=
  if !env.fileExists then ([], 1)
  else
    match resolveProject args env with
    | none => ([], 1)
    | some project_id =>
      let staging_bucket_name := stagingBucketOf args project_id
      let e1 := if pyTruthy args.bucket then []
                else ensure_bucket env staging_bucket_name args.location
      let output_bucket_name := get_output_bucket_name project_id
      let e2 := ensure_bucket env output_bucket_name args.location
      let file_name := basename args.file_path
      let blob_name := blobNameOf env file_name
      let e3 := e1 ++ e2 ++ [Event.uploadBlob staging_bucket_name blob_name]
      if !env.uploadOk then (e3, 1)
      else
        let gcs_uri := strLit "gs://" ++ staging_bucket_name ++ [47] ++ blob_name
        let body := transcribePhase args env output_bucket_name file_name gcs_uri
        (e3 ++ body.1 ++ cleanupPhase args env staging_bucket_name blob_name, body.2)

end Pipeline

/-- The transcription text `main` computes, when inference succeeds for
the selected variant (`none` when it raises). -/
def selectedTranscript (args : Args) (env : Env) : Option PyStr :=
  if pyTruthy args.api_key then
    match env.inferBResult with
    | Except.ok chunks => some (accumulateB chunks)
    | Except.error _ => none
  else
    match env.inferAResult with
    | Except.ok frags => some (accumulateA frags)
    | Except.error _ => none

/-- Recognizer for `delete_blob` invocations in a trace. -/
def isDelete : Event → Bool
  | Event.deleteBlob _ _ => true
  | _ => false

/-- Recognizer for Variant A inference invocations. -/
def isInferAEvt : Event → Bool
  | Event.inferA _ _ => true
  | _ => false

/-- Recognizer for Variant B inference invocations. -/
def isInferBEvt : Event → Bool
  | Event.inferB _ _ _ => true
  | _ => false

/-- Recognizer for inference invocations of either variant. -/
def isInferEvt (e : Event) : Bool := isInferAEvt e || isInferBEvt e

/-- Recognizer for `ensure_bucket` invocations on a given bucket. -/
def isEnsureOn (b : PyStr) : Event → Bool
  | Event.ensureCheck n _ => n == b
  | _ => false

/-- Recognizer for `upload_to_gcs` invocations. -/
def isUploadEvt : Event → Bool
  | Event.uploadBlob _ _ => true
  | _ => false

/-- A fixed argument vector for concrete runs: derived staging bucket,
explicit project, no API key, cleanup enabled. -/
def argsW : Args :=
  { file_path := strLit "input/vid.mp4"
    bucket := none
    project := some (strLit "proj")
    location := strLit "us-central1"
    model := strLit "gemini-2.5-pro"
    preview := false
    keep_gcs := false
    api_key := none }

/-- A fixed environment for concrete runs: everything succeeds, Variant A
yields one fragment, transliteration is the identity, timestamp 0. -/
def envW : Env :=
  { fileExists := true
    adcProject := none
    gcloudProject := none
    ensureFails := fun _ => false
    uploadOk := true
    inferAResult := Except.ok [strLit "hi"]
    inferBResult := Except.ok []
    tr := fun s => some s
    localWriteOk := true
    uploadTextOk := true
    deleteOk := true
    timestamp := 0 }

/-! ## Accumulation lemmas -/

theorem foldl_append_flatten (l : List PyStr) (a : PyStr) :
    l.foldl (fun full c => full ++ c) a = a ++ l.flatten := by
  induction l generalizing a with
  | nil => simp
  | cons h t ih => simp [ih, List.append_assoc]

theorem accumulateA_eq_flatten (l : List PyStr) : accumulateA l = l.flatten := by
  unfold accumulateA
  rw [foldl_append_flatten]
  simp

theorem nonEmptyTexts_cons_none (t : List (Option PyStr)) :
    nonEmptyTexts (none :: t) = nonEmptyTexts t := by
  simp [nonEmptyTexts, List.filterMap_cons]

theorem nonEmptyTexts_cons_some (s : PyStr) (t : List (Option PyStr)) :
    nonEmptyTexts (some s :: t)
      = if s.isEmpty then nonEmptyTexts t else s :: nonEmptyTexts t := by
  by_cases hs : s = [] <;> simp [nonEmptyTexts, List.filterMap_cons, hs, List.isEmpty_iff]

theorem accumulateB_foldl (chunks : List (Option PyStr)) (a : PyStr) :
    chunks.foldl variantBStep a = a ++ (nonEmptyTexts chunks).flatten := by
  induction chunks generalizing a with
  | nil => simp [nonEmptyTexts]
  | cons h t ih =>
    cases h with
    | none =>
      rw [List.foldl_cons]
      show List.foldl variantBStep a t = _
      rw [ih, nonEmptyTexts_cons_none]
    | some s =>
      rw [List.foldl_cons]
      by_cases hs : s.isEmpty
      · have hstep : variantBStep a (some s) = a := by simp [variantBStep, hs]
        rw [hstep, ih, nonEmptyTexts_cons_some]
        simp [hs]
      · have hstep : variantBStep a (some s) = a ++ s := by simp [variantBStep, hs]
        rw [hstep, ih, nonEmptyTexts_cons_some]
        simp [hs, List.append_assoc]

theorem accumulateB_eq_flatten (chunks : List (Option PyStr)) :
    accumulateB chunks = (nonEmptyTexts chunks).flatten := by
  unfold accumulateB
  rw [accumulateB_foldl]
  simp

theorem streamConsume_foldl (l o : List PyStr) (a : PyStr) :
    l.foldl (fun acc chunk => (acc.1 ++ [chunk], acc.2 ++ chunk)) (o, a)
      = (o ++ l, a ++ l.flatten) := by
  induction l generalizing o a with
  | nil => simp
  | cons h t ih => simp [ih, List.append_assoc]

/-- C6: the orchestrator accumulates streamed inference fragments by
concatenation in arrival order — the streaming loop observes every
fragment, in order, interleaved with the accumulation (so each fragment is
consumed before the next is requested), and on the fragment sequence
`["Hel", "lo ", "world"]` the accumulated transcription is
`"Hello world"`. -/
theorem stream_accumulation_ordered :
    (∀ frags : List PyStr, streamConsume frags = (frags, accumulateA frags))
    ∧ streamConsume [strLit "Hel", strLit "lo ", strLit "world"]
        = ([strLit "Hel", strLit "lo ", strLit "world"], strLit "Hello world") := by
  constructor
  · intro frags
    unfold streamConsume
    rw [streamConsume_foldl, accumulateA_eq_flatten]
    simp
  · decide

/-- C10: Variant B accumulation skips chunks whose text is `None` or
empty, returning exactly the concatenation of the non-empty fragment texts
in arrival order, while Variant A concatenates every fragment
unconditionally; on streams with no `None` and no empty fragment the two
accumulators agree. -/
theorem variantB_skips_empty_fragments :
    (∀ chunks : List (Option PyStr),
        accumulateB chunks = accumulateA (nonEmptyTexts chunks))
    ∧ ∀ l : List PyStr, (∀ s ∈ l, s.isEmpty = false) →
        accumulateB (l.map some) = accumulateA l := by
  have hB : ∀ chunks, accumulateB chunks = accumulateA (nonEmptyTexts chunks) := by
    intro chunks
    rw [accumulateB_eq_flatten, accumulateA_eq_flatten]
  refine ⟨hB, fun l hl => ?_⟩
  rw [hB]
  have hmap : nonEmptyTexts (l.map some) = l := by
    induction l with
    | nil => simp [nonEmptyTexts]
    | cons h t ih =>
      rw [List.map_cons, nonEmptyTexts_cons_some, hl h (by simp)]
      rw [if_neg (by simp)]
      rw [ih (fun s hs => hl s (by simp [hs]))]
  rw [hmap]

/-- Witness for C10: the agreement clause at the concrete stream
`["ab", "c"]`. -/
theorem variantB_skips_empty_fragments_w :
    accumulateB ([strLit "ab", strLit "c"].map some)
      = accumulateA [strLit "ab", strLit "c"] :=
  variantB_skips_empty_fragments.2 [strLit "ab", strLit "c"] (by decide)

/-! ## Bucket-name sanitization -/

theorem lowerCp_not_upper (c : Nat) : isUpperCp (lowerCp c) = false := by
  unfold lowerCp isUpperCp
  split_ifs with h <;> (rw [decide_eq_false_iff_not]; omega)

theorem lowerCp_ne_small (c d : Nat) (hd : d < 65) (hc : c ≠ d) : lowerCp c ≠ d := by
  unfold lowerCp
  split_ifs with h <;> omega

theorem safeChar_ok (a : Nat) :
    lowerCp (replChar 46 45 (replChar 58 45 a)) ≠ 58
    ∧ lowerCp (replChar 46 45 (replChar 58 45 a)) ≠ 46
    ∧ isUpperCp (lowerCp (replChar 46 45 (replChar 58 45 a))) = false := by
  refine ⟨?_, ?_, lowerCp_not_upper _⟩ <;>
    (apply lowerCp_ne_small _ _ (by omega); unfold replChar; split_ifs <;> omega)

theorem safe_project_chars (p : PyStr) (c : Nat) (hc : c ∈ safe_project p) :
    c ≠ 58 ∧ c ≠ 46 ∧ isUpperCp c = false := by
  unfold safe_project pyLower pyReplaceChar at hc
  simp only [List.map_map, List.mem_map, Function.comp] at hc
  obtain ⟨a, _, rfl⟩ := hc
  exact safeChar_ok a

theorem pyLower_chars (s : PyStr) (c : Nat) (hc : c ∈ pyLower s)
    (h1 : 58 ∉ s) (h2 : 46 ∉ s) :
    c ≠ 58 ∧ c ≠ 46 ∧ isUpperCp c = false := by
  unfold pyLower at hc
  rw [List.mem_map] at hc
  obtain ⟨a, ha, rfl⟩ := hc
  refine ⟨lowerCp_ne_small a 58 (by omega) ?_, lowerCp_ne_small a 46 (by omega) ?_,
    lowerCp_not_upper a⟩
  · intro h; exact h1 (h ▸ ha)
  · intro h; exact h2 (h ▸ ha)

theorem staging_lit_chars :
    ∀ c ∈ strLit "gemini-transcriber-", c ≠ 58 ∧ c ≠ 46 ∧ isUpperCp c = false := by
  decide

theorem output_lit_chars :
    ∀ c ∈ strLit "-gemini-video-transcribe", c ≠ 58 ∧ c ≠ 46 ∧ isUpperCp c = false := by
  decide

/-- Counterexample for C7 as stated: the project id `"a:b"` contains `:`,
yet with the region argument `"x.y"` the staging bucket name still
contains a dot, because `get_staging_bucket_name` only lowercases the
location and never strips `:` or `.` from it. -/
theorem staging_bucket_keeps_region_dot :
    58 ∈ strLit "a:b"
    ∧ 46 ∈ get_staging_bucket_name (strLit "a:b") (strLit "x.y") := by
  decide

/-- C7 (amended): for every project identifier containing `:` or `.`, and
every region argument itself free of `:` and `.`, both
`get_staging_bucket_name` and `get_output_bucket_name` contain neither
`:` nor `.` and are entirely lowercase; the output bucket name satisfies
this for every region since it does not depend on the region at all. -/
theorem bucket_names_sanitized (project location : PyStr)
    (hproj : 58 ∈ project ∨ 46 ∈ project)
    (h1 : 58 ∉ location) (h2 : 46 ∉ location) :
    (∀ c ∈ get_staging_bucket_name project location,
        c ≠ 58 ∧ c ≠ 46 ∧ isUpperCp c = false)
    ∧ ∀ c ∈ get_output_bucket_name project,
        c ≠ 58 ∧ c ≠ 46 ∧ isUpperCp c = false := by
  constructor
  · intro c hc
    unfold get_staging_bucket_name at hc
    simp only [List.mem_append] at hc
    rcases hc with ((hlit | hsp) | hdash) | hloc
    · exact staging_lit_chars c hlit
    · exact safe_project_chars project c hsp
    · rcases List.mem_singleton.mp hdash with rfl
      refine ⟨by omega, by omega, by decide⟩
    · exact pyLower_chars location c hloc h1 h2
  · intro c hc
    unfold get_output_bucket_name at hc
    rcases List.mem_append.mp hc with hsp | hlit
    · exact safe_project_chars project c hsp
    · exact output_lit_chars c hlit

/-- Witness for C7 (amended) at project `"My.Proj:x"` and region
`"EU-West1"`. -/
theorem bucket_names_sanitized_w :
    (∀ c ∈ get_staging_bucket_name (strLit "My.Proj:x") (strLit "EU-West1"),
        c ≠ 58 ∧ c ≠ 46 ∧ isUpperCp c = false)
    ∧ ∀ c ∈ get_output_bucket_name (strLit "My.Proj:x"),
        c ≠ 58 ∧ c ≠ 46 ∧ isUpperCp c = false :=
  bucket_names_sanitized (strLit "My.Proj:x") (strLit "EU-West1")
    (by decide) (by decide) (by decide)

/-! ## Filename sanitization -/

theorem pyReplaceChar_id_of_not_mem (s : PyStr) (a b : Nat) (h : a ∉ s) :
    pyReplaceChar s a b = s := by
  unfold pyReplaceChar
  induction s with
  | nil => rfl
  | cons x t ih =>
    rw [List.map_cons, ih (fun hx => h (by simp [hx]))]
    have hx : x ≠ a := fun hxa => h (by simp [hxa])
    unfold replChar
    rw [if_neg hx]

/-- Counterexample for C8 as stated: the filename `"."` has base `"."`,
which is its own transliteration, lowercase and space-free, yet
`sanitize_filename` is not idempotent on it: one pass yields `"..txt"`,
whose leading dots make `splitext` treat the whole of `"..txt"` as the
base, so a second pass yields `"..txt.txt"`. -/
theorem sanitize_filename_not_idempotent :
    splitext (strLit ".") = (strLit ".", [])
    ∧ translitOr (fun s => some s) (strLit ".") = strLit "."
    ∧ pyLower (strLit ".") = strLit "."
    ∧ (32 : Nat) ∉ strLit "."
    ∧ sanitize_filename (fun s => some s)
        (sanitize_filename (fun s => some s) (strLit "."))
        ≠ sanitize_filename (fun s => some s) (strLit ".") := by
  decide

/-- C8 (amended): `sanitize_filename` is deterministic (it is a pure
function of its input), and it is idempotent on every filename whose base
`b` is a fixed point of the transliteration backend, already lowercase and
space-free, provided additionally that splitting `b ++ ".txt"` recovers
`b` as the base (which holds whenever `b` contains a non-dot character and
no path separator, and fails for degenerate bases such as the empty or
all-dots base). -/
theorem sanitize_filename_idempotent (tr : PyStr → Option PyStr) (x b e : PyStr)
    (hx : splitext x = (b, e))
    (htr : translitOr tr b = b)
    (hlow : pyLower b = b)
    (hsp : (32 : Nat) ∉ b)
    (hsplit : splitext (b ++ strLit ".txt") = (b, strLit ".txt")) :
    sanitize_filename tr (sanitize_filename tr x) = sanitize_filename tr x := by
  have hbase : sanitize_filename tr x = b ++ strLit ".txt" := by
    unfold sanitize_filename
    rw [hx]
    simp only
    rw [htr, hlow, pyReplaceChar_id_of_not_mem b 32 95 hsp]
  rw [hbase]
  unfold sanitize_filename
  rw [hsplit]
  simp only
  rw [htr, hlow, pyReplaceChar_id_of_not_mem b 32 95 hsp]

/-- Witness for C8 (amended) at the filename `"video.mp4"` with identity
transliteration. -/
theorem sanitize_filename_idempotent_w :
    sanitize_filename (fun s => some s)
        (sanitize_filename (fun s => some s) (strLit "video.mp4"))
      = sanitize_filename (fun s => some s) (strLit "video.mp4") :=
  sanitize_filename_idempotent (fun s => some s)
    (strLit "video.mp4") (strLit "video") (strLit ".mp4")
    (by decide) (by decide) (by decide) (by decide) (by decide)

/-! ## Orchestrator trace lemmas -/

theorem ensure_countP (env : Env) (n l : PyStr) (q : Event → Bool)
    (h1 : ∀ b loc, q (Event.ensureCheck b loc) = false)
    (h2 : ∀ b, q (Event.warnBucket b) = false) :
    List.countP q (ensure_bucket env n l) = 0 := by
  unfold ensure_bucket
  split <;> simp [List.countP_cons, h1, h2]

theorem e1_countP (args : Args) (env : Env) (n l : PyStr) (q : Event → Bool)
    (h1 : ∀ b loc, q (Event.ensureCheck b loc) = false)
    (h2 : ∀ b, q (Event.warnBucket b) = false) :
    List.countP q
      (if pyTruthy args.bucket then ([] : List Event) else ensure_bucket env n l) = 0 := by
  split
  · rfl
  · exact ensure_countP env n l q h1 h2

theorem persist_countP (env : Env) (ob fn t : PyStr) (q : Event → Bool)
    (h1 : ∀ pth c, q (Event.writeLocal pth c) = false)
    (h2 : ∀ b n c, q (Event.uploadText b n c) = false)
    (h3 : q Event.warnUploadText = false) :
    List.countP q (persistPhase env ob fn t).1 = 0 := by
  unfold persistPhase
  split_ifs <;> simp [List.countP_cons, h1, h2, h3]

theorem transcribe_countP (args : Args) (env : Env) (ob fn uri : PyStr) (q : Event → Bool)
    (h1 : ∀ pth c, q (Event.writeLocal pth c) = false)
    (h2 : ∀ b n c, q (Event.uploadText b n c) = false)
    (h3 : q Event.warnUploadText = false)
    (hA : ∀ u m, q (Event.inferA u m) = false)
    (hB : ∀ k u m, q (Event.inferB k u m) = false) :
    List.countP q (transcribePhase args env ob fn uri).1 = 0 := by
  unfold transcribePhase
  split
  · split
    · simp [List.countP_cons, hB]
    · rw [List.countP_cons, persist_countP env ob fn _ q h1 h2 h3]
      simp [hB]
  · split
    · simp [List.countP_cons, hA]
    · rw [List.countP_cons, persist_countP env ob fn _ q h1 h2 h3]
      simp [hA]

theorem cleanup_countP (args : Args) (env : Env) (sb bn : PyStr) (q : Event → Bool)
    (h1 : ∀ b bl, q (Event.deleteBlob b bl) = false)
    (h2 : q Event.warnCleanup = false) :
    List.countP q (cleanupPhase args env sb bn) = 0 := by
  unfold cleanupPhase
  split_ifs <;> simp [List.countP_cons, h1, h2]

theorem cleanup_countP_delete (args : Args) (env : Env) (sb bn : PyStr) :
    List.countP isDelete (cleanupPhase args env sb bn)
      = if args.keep_gcs then 0 else 1 := by
  unfold cleanupPhase
  split_ifs <;> simp [List.countP_cons, isDelete]

theorem cleanup_filter_delete (args : Args) (env : Env) (sb bn : PyStr)
    (h : args.keep_gcs = false) :
    List.filter isDelete (cleanupPhase args env sb bn) = [Event.deleteBlob sb bn] := by
  unfold cleanupPhase
  rw [h]
  rw [if_neg (by simp)]
  split_ifs <;> simp [List.filter_cons, isDelete]

theorem ensure_filter_delete (env : Env) (n l : PyStr) :
    List.filter isDelete (ensure_bucket env n l) = [] := by
  unfold ensure_bucket
  split <;> simp [List.filter_cons, isDelete]

theorem persist_filter_delete (env : Env) (ob fn t : PyStr) :
    List.filter isDelete (persistPhase env ob fn t).1 = [] := by
  unfold persistPhase
  split_ifs <;> simp [List.filter_cons, isDelete]

theorem transcribe_filter_delete (args : Args) (env : Env) (ob fn uri : PyStr) :
    List.filter isDelete (transcribePhase args env ob fn uri).1 = [] := by
  unfold transcribePhase
  split <;> split <;> simp [List.filter_cons, isDelete, persist_filter_delete]

theorem transcribe_countP_inferA (args : Args) (env : Env) (ob fn uri : PyStr) :
    List.countP isInferAEvt (transcribePhase args env ob fn uri).1
      = if pyTruthy args.api_key then 0 else 1 := by
  unfold transcribePhase
  split_ifs with h
  · split
    · simp [isInferAEvt]
    · rw [List.countP_cons,
        persist_countP env ob fn _ isInferAEvt (fun _ _ => rfl) (fun _ _ _ => rfl) rfl]
      simp [isInferAEvt]
  · split
    · simp [List.countP_cons, isInferAEvt]
    · rw [List.countP_cons,
        persist_countP env ob fn _ isInferAEvt (fun _ _ => rfl) (fun _ _ _ => rfl) rfl]
      simp [isInferAEvt]

theorem transcribe_countP_inferB (args : Args) (env : Env) (ob fn uri : PyStr) :
    List.countP isInferBEvt (transcribePhase args env ob fn uri).1
      = if pyTruthy args.api_key then 1 else 0 := by
  unfold transcribePhase
  split_ifs with h
  · split
    · simp [isInferBEvt]
    · rw [List.countP_cons,
        persist_countP env ob fn _ isInferBEvt (fun _ _ => rfl) (fun _ _ _ => rfl) rfl]
      simp [isInferBEvt]
  · split
    · simp [List.countP_cons, isInferBEvt]
    · rw [List.countP_cons,
        persist_countP env ob fn _ isInferBEvt (fun _ _ => rfl) (fun _ _ _ => rfl) rfl]
      simp [isInferBEvt]

theorem transcribe_countP_infer (args : Args) (env : Env) (ob fn uri : PyStr) :
    List.countP isInferEvt (transcribePhase args env ob fn uri).1 = 1 := by
  unfold transcribePhase
  split_ifs with h
  · split
    · simp [isInferEvt, isInferAEvt, isInferBEvt]
    · rw [List.countP_cons,
        persist_countP env ob fn _ isInferEvt (fun _ _ => rfl) (fun _ _ _ => rfl) rfl]
      simp [isInferEvt, isInferAEvt, isInferBEvt]
  · split
    · simp [List.countP_cons, isInferEvt, isInferAEvt, isInferBEvt]
    · rw [List.countP_cons,
        persist_countP env ob fn _ isInferEvt (fun _ _ => rfl) (fun _ _ _ => rfl) rfl]
      simp [isInferEvt, isInferAEvt, isInferBEvt]

theorem ensure_mem (env : Env) (n l : PyStr) :
    Event.ensureCheck n l ∈ ensure_bucket env n l := by
  unfold ensure_bucket
  split <;> simp

theorem main_shape (args : Args) (env : Env) (p : PyStr)
    (hf : env.fileExists = true) (hp : resolveProject args env = some p)
    (hu : env.uploadOk = true) :
    Pipeline.main args env =
      ((if pyTruthy args.bucket then []
        else ensure_bucket env (stagingBucketOf args p) args.location)
        ++ ensure_bucket env (get_output_bucket_name p) args.location
        ++ [Event.uploadBlob (stagingBucketOf args p)
              (blobNameOf env (basename args.file_path))]
        ++ (transcribePhase args env (get_output_bucket_name p) (basename args.file_path)
              (strLit "gs://" ++ stagingBucketOf args p ++ [47]
                ++ blobNameOf env (basename args.file_path))).1
        ++ cleanupPhase args env (stagingBucketOf args p)
              (blobNameOf env (basename args.file_path)),
       (transcribePhase args env (get_output_bucket_name p) (basename args.file_path)
              (strLit "gs://" ++ stagingBucketOf args p ++ [47]
                ++ blobNameOf env (basename args.file_path))).2) := by
  unfold Pipeline.main
  rw [hf, hp, hu]
  simp [List.append_assoc]

theorem main_shape_uploadFail (args : Args) (env : Env) (p : PyStr)
    (hf : env.fileExists = true) (hp : resolveProject args env = some p)
    (hu : env.uploadOk = false) :
    Pipeline.main args env =
      ((if pyTruthy args.bucket then []
        else ensure_bucket env (stagingBucketOf args p) args.location)
        ++ ensure_bucket env (get_output_bucket_name p) args.location
        ++ [Event.uploadBlob (stagingBucketOf args p)
              (blobNameOf env (basename args.file_path))], 1) := by
  unfold Pipeline.main
  rw [hf, hp, hu]
  simp [List.append_assoc]

/-- C1: whenever the staged blob was actually created (the upload
succeeded) and `--keep-gcs` is not set, `delete_blob` is invoked exactly
once, on the staging bucket and the staged blob name, regardless of how
any later stage fares; with `--keep-gcs` set it is never invoked. -/
theorem delete_blob_exactly_once (args : Args) (env : Env) (p : PyStr)
    (hf : env.fileExists = true) (hp : resolveProject args env = some p)
    (hu : env.uploadOk = true) :
    List.countP isDelete (Pipeline.main args env).1
        = (if args.keep_gcs then 0 else 1)
    ∧ (args.keep_gcs = false →
        List.filter isDelete (Pipeline.main args env).1
          = [Event.deleteBlob (stagingBucketOf args p)
              (blobNameOf env (basename args.file_path))]) := by
  rw [main_shape args env p hf hp hu]
  constructor
  · simp only [List.countP_append,
      e1_countP args env _ _ isDelete (fun _ _ => rfl) (fun _ => rfl),
      ensure_countP env _ _ isDelete (fun _ _ => rfl) (fun _ => rfl),
      transcribe_countP args env _ _ _ isDelete (fun _ _ => rfl) (fun _ _ _ => rfl) rfl
        (fun _ _ => rfl) (fun _ _ _ => rfl),
      cleanup_countP_delete]
    simp [List.countP_cons, isDelete]
  · intro hk
    simp only [List.filter_append, ensure_filter_delete, transcribe_filter_delete,
      cleanup_filter_delete args env _ _ hk]
    have h1 : List.filter isDelete
        (if pyTruthy args.bucket then ([] : List Event)
         else ensure_bucket env (stagingBucketOf args p) args.location) = [] := by
      split
      · rfl
      · exact ensure_filter_delete env _ _
    rw [h1]
    simp [List.filter_cons, isDelete]

/-- Witness for C1 at a concrete run (derived bucket, Variant A, all
external calls succeed). -/
theorem delete_blob_exactly_once_w :
    List.countP isDelete (Pipeline.main argsW envW).1
        = (if argsW.keep_gcs then 0 else 1)
    ∧ (argsW.keep_gcs = false →
        List.filter isDelete (Pipeline.main argsW envW).1
          = [Event.deleteBlob (stagingBucketOf argsW (strLit "proj"))
              (blobNameOf envW (basename argsW.file_path))]) :=
  delete_blob_exactly_once argsW envW (strLit "proj") rfl (by decide) rfl

/-- Counterexample for C2 as stated: in a run with the explicit argument
`--bucket mybucket`, `ensure_bucket` is never called on the staging
bucket, although the upload to that bucket is attempted — the orchestrator
only ensures the staging bucket when it derives the name itself. -/
theorem explicit_bucket_never_ensured :
    List.countP (isEnsureOn (strLit "mybucket"))
        (Pipeline.main { argsW with bucket := some (strLit "mybucket") } envW).1 = 0
    ∧ List.countP isUploadEvt
        (Pipeline.main { argsW with bucket := some (strLit "mybucket") } envW).1 = 1
    ∧ Event.uploadBlob (strLit "mybucket") (blobNameOf envW (strLit "vid.mp4"))
        ∈ (Pipeline.main { argsW with bucket := some (strLit "mybucket") } envW).1 := by
  decide


/-- C2 (amended): before attempting the upload the orchestrator always
derives and ensures the output bucket, and it ensures the staging bucket
exactly when the staging bucket name is derived (no truthy `--bucket`
argument); when `--bucket` is supplied the staging bucket is used for the
upload without any `ensure_bucket` call on it (the counterexample above). -/
theorem ensure_buckets_before_upload (args : Args) (env : Env) (p : PyStr)
    (hf : env.fileExists = true) (hp : resolveProject args env = some p) :
    ∃ pre rest,
      (Pipeline.main args env).1
        = pre ++ Event.uploadBlob (stagingBucketOf args p)
            (blobNameOf env (basename args.file_path)) :: rest
      ∧ Event.ensureCheck (get_output_bucket_name p) args.location ∈ pre
      ∧ (pyTruthy args.bucket = false →
          Event.ensureCheck (get_staging_bucket_name p args.location) args.location ∈ pre) := by
  have hmem1 : Event.ensureCheck (get_output_bucket_name p) args.location
      ∈ (if pyTruthy args.bucket then []
         else ensure_bucket env (stagingBucketOf args p) args.location)
        ++ ensure_bucket env (get_output_bucket_name p) args.location :=
    List.mem_append_right _ (ensure_mem env _ _)
  have hmem2 : pyTruthy args.bucket = false →
      Event.ensureCheck (get_staging_bucket_name p args.location) args.location
        ∈ (if pyTruthy args.bucket then []
           else ensure_bucket env (stagingBucketOf args p) args.location)
          ++ ensure_bucket env (get_output_bucket_name p) args.location := by
    intro hbf
    apply List.mem_append_left
    rw [hbf]
    rw [if_neg (by simp)]
    have hsb : stagingBucketOf args p = get_staging_bucket_name p args.location := by
      unfold stagingBucketOf
      rw [hbf]
      simp
    rw [hsb]
    exact ensure_mem env _ _
  by_cases hu : env.uploadOk = true
  · rw [main_shape args env p hf hp hu]
    refine ⟨(if pyTruthy args.bucket then []
             else ensure_bucket env (stagingBucketOf args p) args.location)
            ++ ensure_bucket env (get_output_bucket_name p) args.location,
            (transcribePhase args env (get_output_bucket_name p) (basename args.file_path)
              (strLit "gs://" ++ stagingBucketOf args p ++ [47]
                ++ blobNameOf env (basename args.file_path))).1
            ++ cleanupPhase args env (stagingBucketOf args p)
                (blobNameOf env (basename args.file_path)),
            ?_, hmem1, hmem2⟩
    simp [List.append_assoc]
  · have hu2 : env.uploadOk = false := by
      revert hu
      cases env.uploadOk <;> simp
    rw [main_shape_uploadFail args env p hf hp hu2]
    refine ⟨(if pyTruthy args.bucket then []
             else ensure_bucket env (stagingBucketOf args p) args.location)
            ++ ensure_bucket env (get_output_bucket_name p) args.location,
            [], ?_, hmem1, hmem2⟩
    simp [List.append_assoc]

/-- Witness for C2 (amended) at a concrete run with a derived staging
bucket. -/
theorem ensure_buckets_before_upload_w :
    ∃ pre rest,
      (Pipeline.main argsW envW).1
        = pre ++ Event.uploadBlob (stagingBucketOf argsW (strLit "proj"))
            (blobNameOf envW (basename argsW.file_path)) :: rest
      ∧ Event.ensureCheck (get_output_bucket_name (strLit "proj")) argsW.location ∈ pre
      ∧ (pyTruthy argsW.bucket = false →
          Event.ensureCheck
              (get_staging_bucket_name (strLit "proj") argsW.location) argsW.location
            ∈ pre) :=
  ensure_buckets_before_upload argsW envW (strLit "proj") rfl (by decide)

/-- C3: when `ensure_bucket` raises for the (derived) staging bucket the
error is swallowed as a warning and the upload is still attempted; when
that upload then raises, the run exits with code 1 and no inference call
of either variant is made. -/
theorem ensure_failure_still_uploads (args : Args) (env : Env) (p : PyStr)
    (hf : env.fileExists = true) (hp : resolveProject args env = some p)
    (hb : pyTruthy args.bucket = false)
    (he : env.ensureFails (get_staging_bucket_name p args.location) = true)
    (hu : env.uploadOk = false) :
    (Pipeline.main args env).2 = 1
    ∧ Event.warnBucket (get_staging_bucket_name p args.location)
        ∈ (Pipeline.main args env).1
    ∧ Event.uploadBlob (get_staging_bucket_name p args.location)
        (blobNameOf env (basename args.file_path)) ∈ (Pipeline.main args env).1
    ∧ List.countP isInferEvt (Pipeline.main args env).1 = 0 := by
  have hsb : stagingBucketOf args p = get_staging_bucket_name p args.location := by
    unfold stagingBucketOf
    rw [hb]
    simp
  rw [main_shape_uploadFail args env p hf hp hu]
  refine ⟨rfl, ?_, ?_, ?_⟩
  · apply List.mem_append_left
    apply List.mem_append_left
    rw [if_neg (by simp [hb]), hsb]
    unfold ensure_bucket
    rw [he]
    simp
  · rw [hsb]
    simp
  · simp only [List.countP_append,
      e1_countP args env _ _ isInferEvt (fun _ _ => rfl) (fun _ => rfl),
      ensure_countP env _ _ isInferEvt (fun _ _ => rfl) (fun _ => rfl)]
    simp [List.countP_cons, isInferEvt, isInferAEvt, isInferBEvt]

/-- Witness for C3: derived staging bucket whose check raises, upload
raises too. -/
theorem ensure_failure_still_uploads_w :
    (Pipeline.main argsW
        { envW with ensureFails := fun _ => true, uploadOk := false }).2 = 1
    ∧ Event.warnBucket (get_staging_bucket_name (strLit "proj") argsW.location)
        ∈ (Pipeline.main argsW
            { envW with ensureFails := fun _ => true, uploadOk := false }).1
    ∧ Event.uploadBlob (get_staging_bucket_name (strLit "proj") argsW.location)
        (blobNameOf { envW with ensureFails := fun _ => true, uploadOk := false }
          (basename argsW.file_path))
        ∈ (Pipeline.main argsW
            { envW with ensureFails := fun _ => true, uploadOk := false }).1
    ∧ List.countP isInferEvt
        (Pipeline.main argsW
          { envW with ensureFails := fun _ => true, uploadOk := false }).1 = 0 :=
  ensure_failure_still_uploads argsW
    { envW with ensureFails := fun _ => true, uploadOk := false }
    (strLit "proj") rfl (by decide) rfl rfl rfl

theorem transcribe_eval (args : Args) (env : Env) (ob fn uri T : PyStr)
    (hT : selectedTranscript args env = some T) :
    transcribePhase args env ob fn uri
      = ((if pyTruthy args.api_key
           then Event.inferB (args.api_key.getD []) uri (effModel args)
           else Event.inferA uri (effModel args)) :: (persistPhase env ob fn T).1,
         (persistPhase env ob fn T).2) := by
  unfold selectedTranscript at hT
  unfold transcribePhase
  by_cases hk : pyTruthy args.api_key = true
  · simp only [hk, eq_self_iff_true, if_true] at hT ⊢
    cases hB : env.inferBResult with
    | error e =>
      rw [hB] at hT
      simp at hT
    | ok chunks =>
      rw [hB] at hT
      have hacc : accumulateB chunks = T := by
        injection hT
      simp [hacc]
  · have hk2 : pyTruthy args.api_key = false := by
      revert hk
      cases pyTruthy args.api_key <;> simp
    simp only [hk2, Bool.false_eq_true, if_false] at hT ⊢
    cases hA : env.inferAResult with
    | error e =>
      rw [hA] at hT
      simp at hT
    | ok frags =>
      rw [hA] at hT
      have hacc : accumulateA frags = T := by
        injection hT
      simp [hacc]

/-- C4: when inference succeeds and the local write succeeds but the
mirror `upload_text_to_gcs` to the output bucket raises, the failure is
downgraded to a warning, the run exits with code 0, and the local output
file — under the fixed relative output directory, named by
`sanitize_filename` of the source basename — was written with exactly the
accumulated transcription text. -/
theorem mirror_failure_nonfatal (args : Args) (env : Env) (p T : PyStr)
    (hf : env.fileExists = true) (hp : resolveProject args env = some p)
    (hu : env.uploadOk = true)
    (hT : selectedTranscript args env = some T)
    (hw : env.localWriteOk = true)
    (hm : env.uploadTextOk = false) :
    (Pipeline.main args env).2 = 0
    ∧ Event.writeLocal
        (strLit "workspace/output/"
          ++ sanitize_filename env.tr (basename args.file_path)) T
        ∈ (Pipeline.main args env).1
    ∧ Event.warnUploadText ∈ (Pipeline.main args env).1 := by
  rw [main_shape args env p hf hp hu]
  rw [transcribe_eval args env (get_output_bucket_name p) (basename args.file_path)
    (strLit "gs://" ++ stagingBucketOf args p ++ [47]
      ++ blobNameOf env (basename args.file_path)) T hT]
  have hpp : persistPhase env (get_output_bucket_name p) (basename args.file_path) T
      = ([Event.writeLocal
            (strLit "workspace/output/"
              ++ sanitize_filename env.tr (basename args.file_path)) T,
          Event.uploadText (get_output_bucket_name p)
            (sanitize_filename env.tr (basename args.file_path)) T,
          Event.warnUploadText], 0) := by
    unfold persistPhase
    rw [hw, hm]
    simp
  rw [hpp]
  refine ⟨rfl, ?_, ?_⟩ <;> simp

/-- Witness for C4: Variant A yields `"hi"`, the mirror upload raises. -/
theorem mirror_failure_nonfatal_w :
    (Pipeline.main argsW { envW with uploadTextOk := false }).2 = 0
    ∧ Event.writeLocal
        (strLit "workspace/output/"
          ++ sanitize_filename { envW with uploadTextOk := false }.tr
              (basename argsW.file_path)) (strLit "hi")
        ∈ (Pipeline.main argsW { envW with uploadTextOk := false }).1
    ∧ Event.warnUploadText ∈ (Pipeline.main argsW { envW with uploadTextOk := false }).1 :=
  mirror_failure_nonfatal argsW { envW with uploadTextOk := false }
    (strLit "proj") (strLit "hi") rfl (by decide) rfl (by decide) rfl rfl

/-- Counterexample for C5 as stated: in a run whose upload raises, the
process exits with code 1 before dispatching, and neither inference
variant is ever invoked — so "exactly one variant per run, never neither"
does not hold of every run. -/
theorem upload_failure_invokes_no_variant :
    (Pipeline.main argsW { envW with uploadOk := false }).2 = 1
    ∧ List.countP isInferEvt
        (Pipeline.main argsW { envW with uploadOk := false }).1 = 0 := by
  decide

theorem main_infer_counts (args : Args) (env : Env) (p : PyStr)
    (hf : env.fileExists = true) (hp : resolveProject args env = some p)
    (hu : env.uploadOk = true) :
    List.countP isInferEvt (Pipeline.main args env).1 = 1
    ∧ List.countP isInferBEvt (Pipeline.main args env).1
        = (if pyTruthy args.api_key then 1 else 0)
    ∧ List.countP isInferAEvt (Pipeline.main args env).1
        = (if pyTruthy args.api_key then 0 else 1) := by
  rw [main_shape args env p hf hp hu]
  refine ⟨?_, ?_, ?_⟩
  · simp only [List.countP_append,
      e1_countP args env _ _ isInferEvt (fun _ _ => rfl) (fun _ => rfl),
      ensure_countP env _ _ isInferEvt (fun _ _ => rfl) (fun _ => rfl),
      transcribe_countP_infer,
      cleanup_countP args env _ _ isInferEvt (fun _ _ => rfl) rfl]
    simp [List.countP_cons, isInferEvt, isInferAEvt, isInferBEvt]
  · simp only [List.countP_append,
      e1_countP args env _ _ isInferBEvt (fun _ _ => rfl) (fun _ => rfl),
      ensure_countP env _ _ isInferBEvt (fun _ _ => rfl) (fun _ => rfl),
      transcribe_countP_inferB,
      cleanup_countP args env _ _ isInferBEvt (fun _ _ => rfl) rfl]
    simp [List.countP_cons, isInferBEvt]
  · simp only [List.countP_append,
      e1_countP args env _ _ isInferAEvt (fun _ _ => rfl) (fun _ => rfl),
      ensure_countP env _ _ isInferAEvt (fun _ _ => rfl) (fun _ => rfl),
      transcribe_countP_inferA,
      cleanup_countP args env _ _ isInferAEvt (fun _ _ => rfl) rfl]
    simp [List.countP_cons, isInferAEvt]

/-- C5 (amended): in every run that reaches the transcription stage (the
upload succeeded), exactly one inference variant is invoked — Variant B
exactly when the API key is truthy, Variant A exactly when it is not;
a run that fails before that stage (e.g. at upload) invokes neither
(the counterexample above). -/
theorem exactly_one_variant_after_upload (args : Args) (env : Env) (p : PyStr)
    (hf : env.fileExists = true) (hp : resolveProject args env = some p)
    (hu : env.uploadOk = true) :
    List.countP isInferEvt (Pipeline.main args env).1 = 1
    ∧ List.countP isInferBEvt (Pipeline.main args env).1
        = (if pyTruthy args.api_key then 1 else 0)
    ∧ List.countP isInferAEvt (Pipeline.main args env).1
        = (if pyTruthy args.api_key then 0 else 1) :=
  main_infer_counts args env p hf hp hu

/-- Witness for C5 (amended) at a concrete Variant A run. -/
theorem exactly_one_variant_after_upload_w :
    List.countP isInferEvt (Pipeline.main argsW envW).1 = 1
    ∧ List.countP isInferBEvt (Pipeline.main argsW envW).1
        = (if pyTruthy argsW.api_key then 1 else 0)
    ∧ List.countP isInferAEvt (Pipeline.main argsW envW).1
        = (if pyTruthy argsW.api_key then 0 else 1) :=
  exactly_one_variant_after_upload argsW envW (strLit "proj") rfl (by decide) rfl

/-- C9: an `--api-key` supplied as the empty string is falsy, so the run
dispatches to Variant A (ambient credentials), not Variant B — dispatch
tests truthiness of the key value, not presence of the flag. -/
theorem empty_api_key_uses_variantA (args : Args) (env : Env) (p : PyStr)
    (hf : env.fileExists = true) (hp : resolveProject args env = some p)
    (hu : env.uploadOk = true) (hk : args.api_key = some []) :
    List.countP isInferAEvt (Pipeline.main args env).1 = 1
    ∧ List.countP isInferBEvt (Pipeline.main args env).1 = 0 := by
  have hkf : pyTruthy args.api_key = false := by
    rw [hk]
    rfl
  obtain ⟨-, hB, hA⟩ := main_infer_counts args env p hf hp hu
  rw [hkf] at hB hA
  simp only [Bool.false_eq_true, if_false] at hB hA
  exact ⟨hA, hB⟩

/-- Witness for C9: a run with `--api-key ""`. -/
theorem empty_api_key_uses_variantA_w :
    List.countP isInferAEvt
        (Pipeline.main { argsW with api_key := some [] } envW).1 = 1
    ∧ List.countP isInferBEvt
        (Pipeline.main { argsW with api_key := some [] } envW).1 = 0 :=
  empty_api_key_uses_variantA { argsW with api_key := some [] } envW
    (strLit "proj") rfl (by decide) rfl rfl
